import Mathlib

/-
  Verification of the fault-tolerant synchronization core of the
  cursor-usage VS Code extension (src/api.ts, src/extension.ts).

  Shallow embedding: asynchronous operations are modelled by passing their
  outcomes explicitly (`Except` for fallible calls, `Option` for optional
  data); the durable key-value store (VS Code globalState Memento) is an
  association list from string keys to stored values; instants of time carry
  the UTC calendar day, the local calendar day and the local hour, which is
  exactly the information the code extracts from `Date` objects
  (`toISOString().split("T")[0]` and `getHours()`).
-/

namespace CursorUsage

/-! ## Durable key-value store (VS Code `globalState` collaborator) -/

/-- Lookup in the durable key-value store (the `globalState.get` collaborator). -/
def kvGet {β : Type} : List (String × β) → String → Option β
  | [], _ => none
  | e :: g, k => if e.1 = k then some e.2 else kvGet g k

/-- Model of `globalState.update(key, undefined)`: delete a key. -/
def kvDelete {β : Type} (g : List (String × β)) (k : String) : List (String × β) :=
  g.filter (fun e => !(e.1 == k))

/-- Model of `globalState.update(key, value)`: overwrite a key. -/
def kvSet {β : Type} (g : List (String × β)) (k : String) (v : β) : List (String × β) :=
  (k, v) :: kvDelete g k

/-- Model of `globalState.keys()`. -/
def kvKeys {β : Type} (g : List (String × β)) : List String :=
  g.map (fun e => e.1)

/-! ## Expiring cache store: `getCached` / `setCached` (src/extension.ts 44-79) -/

/-- Model of `CachedData<T>` from src/extension.ts: a value plus the millisecond
timestamp it was stored at. -/
structure CachedData (α : Type) where
  data : α
  timestamp : Int
deriving DecidableEq

/-- A store holding `CachedData` entries, as used by the generic cache
helpers (the relevant projection of `globalState`). -/
abbrev CacheStore (α : Type) := List (String × CachedData α)

/-- Model of `CACHE_EXPIRY_MS = 24 * 60 * 60 * 1000` from src/extension.ts line 23. -/
def CACHE_EXPIRY_MS : Int := 24 * 60 * 60 * 1000

/-- Model of `getCached` (src/extension.ts 44-61): absent key returns null; a fresh
entry (`now - timestamp ≤ CACHE_EXPIRY_MS`) returns its data; an expired
entry is deleted as a side effect and null is returned.  The returned pair
is (result, store after the call). -/
def getCached {α : Type} (now : Int) (g : CacheStore α) (key : String) :
    Option α × CacheStore α :=
  match kvGet g key with
  | none => (none, g)
  | some cached =>
    if CACHE_EXPIRY_MS < now - cached.timestamp then
      (none, kvDelete g key)
    else
      (some cached.data, g)

/-- Model of `setCached` (src/extension.ts 69-79): overwrite the key with
`{data, timestamp: now}`. -/
def setCached {α : Type} (now : Int) (g : CacheStore α) (key : String) (d : α) :
    CacheStore α :=
  kvSet g key { data := d, timestamp := now }

/-! ## Auth fingerprint tracker (src/extension.ts 136-212) -/

/-- Values stored in `globalState` at the granularity the auth-change
reconciler needs: the string cookie hash, the numeric team id, and cached
payloads (whose contents the clearing logic never inspects; `π` is the
payload type). -/
inductive GVal (π : Type) where
  | str (s : String)
  | int (n : Int)
  | cache (p : π)
deriving DecidableEq

abbrev GStore (π : Type) := List (String × GVal π)

def LAST_KNOWN_COOKIE_HASH_KEY : String := "lastKnownCookieHash"

def LAST_KNOWN_TEAM_ID_KEY : String := "lastKnownTeamId"

def TEAM_DETAILS_CACHE_KEY_STEM : String := "cachedTeamDetails_"

/-- Model of `key.startsWith("cachedTeamDetails_")` from the cache-clearing filters. -/
def isTeamDetailsKey (k : String) : Bool :=
  TEAM_DETAILS_CACHE_KEY_STEM.data.isPrefixOf k.data

/-- Model of `clearCached` (src/extension.ts 86-93): delete every listed key. -/
def clearCached {β : Type} (g : List (String × β)) (keys : List String) :
    List (String × β) :=
  g.filter (fun e => !(keys.contains e.1))

/-- Model of `clearAllCaches` (src/extension.ts 184-194): delete `cachedUserMe` and
`cachedTeams`, then delete every key starting with `cachedTeamDetails_`. -/
def clearAllCaches {π : Type} (g : GStore π) : GStore π :=
  let g1 := clearCached g ["cachedUserMe", "cachedTeams"]
  let teamCacheKeys := (kvKeys g1).filter (fun k => isTeamDetailsKey k)
  clearCached g1 teamCacheKeys

/-- Model of `clearTeamCaches` (src/extension.ts 200-212): delete `cachedTeams`, then
every key starting with `cachedTeamDetails_`. -/
def clearTeamCaches {π : Type} (g : GStore π) : GStore π :=
  let g1 := clearCached g ["cachedTeams"]
  let teamDetailCacheKeys := (kvKeys g1).filter (fun k => isTeamDetailsKey k)
  clearCached g1 teamDetailCacheKeys

/-- Leading decimal digits of a character list. -/
def leadingDigits : List Char → List Char
  | [] => []
  | c :: cs => if c.isDigit then c :: leadingDigits cs else []

/-- Numeric value of a digit list. -/
def digitsToNat (ds : List Char) : Nat :=
  ds.foldl (fun a c => 10 * a + (c.toNat - 48)) 0

/-- Skip leading whitespace, as `parseInt` does. -/
def skipWs : List Char → List Char
  | [] => []
  | c :: cs =>
    if c = ' ' ∨ c = '\t' ∨ c = '\n' ∨ c = '\r' then skipWs cs else c :: cs

/-- JavaScript `parseInt(s, 10)`: skip whitespace, optional sign, read the
leading run of digits; NaN (here `none`) when no digit is found. -/
def parseIntJS (s : String) : Option Int :=
  match skipWs s.data with
  | '-' :: cs =>
    match leadingDigits cs with
    | [] => none
    | ds => some (-(digitsToNat ds : Int))
  | '+' :: cs =>
    match leadingDigits cs with
    | [] => none
    | ds => some ((digitsToNat ds : Int))
  | cs =>
    match leadingDigits cs with
    | [] => none
    | ds => some ((digitsToNat ds : Int))

/-- Model of `currentTeamIdNum` (src/extension.ts 159-163): the configured team id
string parsed to a number; `undefined` when the setting is empty or not
numeric (the `currentTeamId && !isNaN(parseInt(...))` truthiness test —
the empty string is falsy). -/
def cfgTeamIdNum (cfgTeamId : Option String) : Option Int :=
  match cfgTeamId with
  | none => none
  | some s => if s = "" then none else parseIntJS s

/-- The persisted cookie hash, read as `get<string>(LAST_KNOWN_COOKIE_HASH_KEY)`. -/
def readLastCookieHash {π : Type} (g : GStore π) : Option String :=
  match kvGet g LAST_KNOWN_COOKIE_HASH_KEY with
  | some (GVal.str s) => some s
  | _ => none

/-- The persisted team id, read as `get<number>(LAST_KNOWN_TEAM_ID_KEY)`. -/
def readLastTeamId {π : Type} (g : GStore π) : Option Int :=
  match kvGet g LAST_KNOWN_TEAM_ID_KEY with
  | some (GVal.int n) => some n
  | _ => none

/-- The two conditional clears of `checkAndClearCacheOnAuthChange`
(src/extension.ts 152-170): if a persisted hash exists (and, by JS
truthiness, is non-empty) and differs from the current hash, clear all
caches; then, if the persisted team id differs from the configured one,
clear the team caches.  Both comparisons read the original store. -/
def authClearedStore {π : Type} (hashCookie : String → String) (c : String)
    (cfgTeamId : Option String) (g : GStore π) : GStore π :=
  let g1 :=
    match readLastCookieHash g with
    | some h => if h ≠ "" ∧ h ≠ hashCookie c then clearAllCaches g else g
    | none => g
  if readLastTeamId g ≠ cfgTeamIdNum cfgTeamId then clearTeamCaches g1 else g1

/-- The unconditional fingerprint update at the end of
`checkAndClearCacheOnAuthChange` (src/extension.ts 172-177): overwrite the
stored hash with the current one, and the stored team id with the current
number (`update(key, undefined)`, i.e. delete, when it is absent). -/
def writeFingerprint {π : Type} (g2 : GStore π) (currentCookieHash : String)
    (currentTeamIdNum : Option Int) : GStore π :=
  let g3 := kvSet g2 LAST_KNOWN_COOKIE_HASH_KEY (GVal.str currentCookieHash)
  match currentTeamIdNum with
  | some n => kvSet g3 LAST_KNOWN_TEAM_ID_KEY (GVal.int n)
  | none => kvDelete g3 LAST_KNOWN_TEAM_ID_KEY

/-- Model of `checkAndClearCacheOnAuthChange` (src/extension.ts 136-178).
`hashCookie` abstracts the SHA-256 hex digest (src/extension.ts 100-102).
With no cookie the function returns at once; otherwise it performs the two
conditional clears and then unconditionally rewrites the fingerprint. -/
def checkAndClearCacheOnAuthChange {π : Type} (hashCookie : String → String)
    (cookie : Option String) (cfgTeamId : Option String) (g : GStore π) :
    GStore π :=
  match cookie with
  | none => g
  | some c =>
    writeFingerprint (authClearedStore hashCookie c cfgTeamId g)
      (hashCookie c) (cfgTeamIdNum cfgTeamId)

/-! ## API request layer: `makeRequest` (src/api.ts 15-78) -/

/-- Outcome of a single `https.request`: a response with a status code and
body, a transport error, or the 30-second socket timeout. -/
inductive HttpEvent where
  | response (statusCode : Nat) (body : String)
  | netError (msg : String)
  | timeout
deriving DecidableEq

/-- The response handler inside `makeRequest`: 2xx bodies are JSON-parsed
(`parse` abstracts `JSON.parse` plus the cast to `T`); other status codes
reject with an HTTP error; transport errors and timeouts reject. -/
def handleHttpEvent {V : Type} (parse : String → Option V) (ev : HttpEvent) :
    Except String V :=
  match ev with
  | HttpEvent.response code body =>
    if 200 ≤ code ∧ code < 300 then
      match parse body with
      | some v => Except.ok v
      | none => Except.error "Failed to parse response"
    else
      Except.error ("HTTP " ++ toString code ++ ": " ++ body)
  | HttpEvent.netError msg => Except.error msg
  | HttpEvent.timeout => Except.error "timed out"

/-- Model of `makeRequest` (src/api.ts 15-78).  `transport n` is the outcome the
network would give the n-th request this call makes.  The source contains
no retry loop: it issues exactly one `https.request` and settles on its
outcome, so the pair returned is (result of the first event, number of
attempts made = 1). -/
def makeRequest {V : Type} (parse : String → Option V)
    (transport : Nat → HttpEvent) : Except String V × Nat :=
  (handleHttpEvent parse (transport 0), 1)

/-! ## Usage reconciler: `refreshUsage` (src/extension.ts 465-603)

Data shapes follow src/models.ts.  Optional JSON fields are `Option`;
numbers are `Int` (dollar amounts are only copied around, never computed
with, so an integral model suffices). -/

/-- Model of `ModelUsage` (src/models.ts). -/
structure ModelUsage where
  numRequests : Int
  numRequestsTotal : Int
  numTokens : Int
  maxRequestUsage : Option Int
  maxTokenUsage : Option Int
deriving DecidableEq

/-- Model of `UserUsageResponse` (src/models.ts); `gpt4` is the `"gpt-4"` field. -/
structure UserUsageResponse where
  gpt4 : ModelUsage
  gpt35turbo : ModelUsage
  gpt432k : ModelUsage
  startOfMonth : String
deriving DecidableEq

/-- Model of `UserMeResponse` (src/models.ts). -/
structure UserMeResponse where
  email : String
  email_verified : Bool
  name : String
  sub : String
  updated_at : String
  picture : Option String
deriving DecidableEq

/-- Model of `TeamDetails` (src/models.ts). -/
structure TeamDetails where
  userId : Int
deriving DecidableEq

/-- Model of `TeamMemberSpend` (src/models.ts). -/
structure TeamMemberSpend where
  email : String
  fastPremiumRequests : Option Int
  userId : Option Int
  spendCents : Option Int
  hardLimitOverrideDollars : Option Int
deriving DecidableEq

/-- Model of `SpendData` (src/models.ts). -/
structure SpendData where
  teamMemberSpend : List TeamMemberSpend
deriving DecidableEq

/-- The external outcomes one invocation of `refreshUsage` observes:
the credential, the cache-read results, and the results of the upstream
fetches it may perform.  `teamId` is the value `getTeamId` resolves
(src/extension.ts 610-664; that helper swallows its own errors and yields
`undefined` on failure). -/
structure RefreshEnv where
  cookie : Option String
  cachedUserMe : Option UserMeResponse
  fetchUserMe : Except String UserMeResponse
  fetchUserUsage : Except String UserUsageResponse
  teamId : Option Int
  cachedTeamDetails : Option TeamDetails
  fetchTeamDetails : Except String TeamDetails
  fetchTeamSpend : Except String SpendData

/-- The user-identity value `refreshUsage` works with: the cached entry if
present, otherwise the result of `api.fetchUserMe` (src/extension.ts
480-489); a fetch failure escapes to the outer catch. -/
def userMeResOf (env : RefreshEnv) : Except String UserMeResponse :=
  match env.cachedUserMe with
  | some u => Except.ok u
  | none => env.fetchUserMe

/-- The team-details value: cached entry if present, else
`api.fetchTeamDetails` (src/extension.ts 515-527). -/
def teamDetailsResOf (env : RefreshEnv) : Except String TeamDetails :=
  match env.cachedTeamDetails with
  | some d => Except.ok d
  | none => env.fetchTeamDetails

/-- Model of `maxRequests = userUsage ? userUsage["gpt-4"].maxRequestUsage || 500 : 500`
(src/extension.ts 506-508).  JavaScript `||` replaces both `null` and `0`
with the default 500. -/
def maxRequestsOf (userUsage : Option UserUsageResponse) : Int :=
  match userUsage with
  | none => 500
  | some u =>
    match u.gpt4.maxRequestUsage with
    | none => 500
    | some v => if v = 0 then 500 else v

/-- Model of `mySpend` (src/extension.ts 512-539): only computed when a team id is
resolved and truthy (`if (teamId)` — the id 0 is falsy); the team-details
lookup and the spend fetch run in a try block whose failure is swallowed,
leaving `mySpend` undefined; on success, the member row whose `userId`
strictly equals the team-details user id. -/
def mySpendOf (env : RefreshEnv) : Option TeamMemberSpend :=
  match env.teamId with
  | none => none
  | some tid =>
    if tid = 0 then none
    else
      match teamDetailsResOf env with
      | Except.error _ => none
      | Except.ok userDetails =>
        match env.fetchTeamSpend with
        | Except.error _ => none
        | Except.ok spendData =>
          spendData.teamMemberSpend.find?
            (fun m => m.userId == some userDetails.userId)

/-- The data-source selection (src/extension.ts 547-567): when team spend
for the member is present with a numeric `fastPremiumRequests`, use the
team figures; otherwise use the individual figure with spend fields
absent.  Returns (usedRequests, spendCents, hardLimitDollars). -/
def usedSpendOf (mySpend : Option TeamMemberSpend) (uu : UserUsageResponse) :
    Int × Option Int × Option Int :=
  match mySpend with
  | none => (uu.gpt4.numRequests, none, none)
  | some ms =>
    match ms.fastPremiumRequests with
    | none => (uu.gpt4.numRequests, none, none)
    | some f => (f, ms.spendCents, ms.hardLimitOverrideDollars)

/-- The `UsageSnapshot` handed to `statusBar.updateStatusBar`
(src/extension.ts 577-583).  `ρ` is the reset-info shape produced by
`calculateResetInfo`, which the claims never inspect. -/
structure UsageSnapshot (ρ : Type) where
  remainingRequests : Int
  totalRequests : Int
  spendCents : Option Int
  hardLimitDollars : Option Int
  resetInfo : ρ
deriving DecidableEq

/-- Outcome of one `refreshUsage` invocation: missing credential
(warning, return), an exception reaching the outer catch
(`setStatusBarError("Refresh Failed")`), the `bothApisFailed` path that
skips the status-bar update (no snapshot), or a rendered snapshot. -/
inductive RefreshResult (ρ : Type) where
  | noCookie
  | refreshFailed (msg : String)
  | completeFailure
  | snapshot (s : UsageSnapshot ρ)
deriving DecidableEq

/-- Model of `refreshUsage` (src/extension.ts 465-603).  `calcReset` abstracts
`calculateResetInfo`; in every branch that renders, `userUsage` is
non-null, so it is applied to `userUsage.startOfMonth`.  Cache writes
(`setCached`) do not feed back into the result of a single invocation and
are not part of this value-level model. -/
def refreshUsage {ρ : Type} (calcReset : String → ρ) (env : RefreshEnv) :
    RefreshResult ρ :=
  match env.cookie with
  | none => RefreshResult.noCookie
  | some _ =>
    match userMeResOf env with
    | Except.error e => RefreshResult.refreshFailed e
    | Except.ok _ =>
      let userUsage : Option UserUsageResponse :=
        match env.fetchUserUsage with
        | Except.ok u => some u
        | Except.error _ => none
      let maxRequests := maxRequestsOf userUsage
      let mySpend := mySpendOf env
      match userUsage with
      | none => RefreshResult.completeFailure
      | some uu =>
        let sel := usedSpendOf mySpend uu
        let remainingRequests := max 0 (maxRequests - sel.1)
        RefreshResult.snapshot
          { remainingRequests := remainingRequests
            totalRequests := maxRequests
            spendCents := sel.2.1
            hardLimitDollars := sel.2.2
            resetInfo := calcReset uu.startOfMonth }

/-! ## Notification scheduler: `checkAndSendNotification`
(src/extension.ts 342-395) -/

/-- Model of `NotificationState` (src/extension.ts 15-19). -/
structure NotificationState where
  date : String
  attempts : Nat
  sent : Bool
deriving DecidableEq

/-- The instant a check runs at, carrying exactly what the code reads from
`Date`: `utcDay` is `now.toISOString().split("T")[0]` (the UTC calendar
day), `localHour` is `now.getHours()` (local), and `localDay` is the local
calendar day at that instant (not read by the code; used to state
properties about local days). -/
structure Clock where
  utcDay : String
  localDay : String
  localHour : Nat
deriving DecidableEq

/-- Result of one check: the state written by the `finally` block (`none`
when a guard clause returned before the write), and whether a delivery
attempt was made. -/
structure CheckResult where
  persisted : Option NotificationState
  attempted : Bool
deriving DecidableEq

/-- The state the guards evaluate (src/extension.ts 349-356): the stored
tuple, unless it is absent or its date differs from `todayStr` (the UTC
day), in which case a fresh `{date: todayStr, attempts: 0, sent: false}`. -/
def effectiveState (c : Clock) (stored : Option NotificationState) :
    NotificationState :=
  match stored with
  | none => { date := c.utcDay, attempts := 0, sent := false }
  | some s =>
    if s.date = c.utcDay then s
    else { date := c.utcDay, attempts := 0, sent := false }

/-- Model of `checkAndSendNotification` (src/extension.ts 342-395).  Guards: already
sent, attempt cap (3), local hour before 9 — each returns with no write.
Past the guards, `attempts` is incremented unconditionally, the delivery is
tried (`deliveryOk` abstracts `getUsageStats` returning usable text and the
sends not throwing), `sent` becomes true only on success, and the finally
block persists the state in every attempt case. -/
def checkAndSendNotification (c : Clock) (stored : Option NotificationState)
    (deliveryOk : Bool) : CheckResult :=
  let state := effectiveState c stored
  if state.sent then { persisted := none, attempted := false }
  else if 3 ≤ state.attempts then { persisted := none, attempted := false }
  else if c.localHour < 9 then { persisted := none, attempted := false }
  else
    let state1 := { state with attempts := state.attempts + 1 }
    let state2 := if deliveryOk then { state1 with sent := true } else state1
    { persisted := some state2, attempted := true }

/-- The guard condition under which a delivery attempt (and hence exactly
one persistence) happens. -/
def guardsPass (c : Clock) (stored : Option NotificationState) : Bool :=
  let state := effectiveState c stored
  !state.sent && decide (state.attempts < 3) && decide (9 ≤ c.localHour)

/-! ## Store lemmas -/

theorem kvGet_filter {β : Type} (g : List (String × β)) (q : String → Bool)
    (k : String) :
    kvGet (g.filter (fun e => q e.1)) k = if q k then kvGet g k else none := by
  induction g with
  | nil => simp [kvGet]
  | cons e g ih =>
    rw [List.filter_cons]
    by_cases hk : e.1 = k
    · subst hk
      by_cases hq : q e.1
      · simp [kvGet, hq]
      · simp [kvGet, hq, ih]
    · by_cases hq : q e.1
      · simp [kvGet, hq, hk, ih]
      · simp [kvGet, hq, hk, ih]

theorem kvGet_clearCached {β : Type} (g : List (String × β))
    (keys : List String) (k : String) :
    kvGet (clearCached g keys) k = if k ∈ keys then none else kvGet g k := by
  have h : kvGet (clearCached g keys) k =
      if (!(keys.contains k)) = true then kvGet g k else none :=
    kvGet_filter g (fun s => !(keys.contains s)) k
  rw [h]
  by_cases hm : k ∈ keys <;> simp [hm]

theorem kvGet_kvDelete {β : Type} (g : List (String × β)) (k0 k : String) :
    kvGet (kvDelete g k0) k = if k = k0 then none else kvGet g k := by
  have h : kvGet (kvDelete g k0) k =
      if (!(k == k0)) = true then kvGet g k else none :=
    kvGet_filter g (fun s => !(s == k0)) k
  rw [h]
  by_cases hk : k = k0 <;> simp [hk]

theorem kvGet_kvSet {β : Type} (g : List (String × β)) (k0 : String) (v : β)
    (k : String) :
    kvGet (kvSet g k0 v) k = if k = k0 then some v else kvGet g k := by
  by_cases hk : k = k0
  · subst hk; simp [kvSet, kvGet]
  · have hne : ¬ k0 = k := fun h => hk h.symm
    simp [kvSet, kvGet, hne, kvGet_kvDelete, hk]

theorem kvGet_mem_keys {β : Type} (g : List (String × β)) (k : String) (v : β)
    (h : kvGet g k = some v) : k ∈ kvKeys g := by
  induction g with
  | nil => simp [kvGet] at h
  | cons e g ih =>
    by_cases hk : e.1 = k
    · simp [kvKeys, hk]
    · simp [kvGet, hk] at h
      have := ih h
      simp [kvKeys] at this ⊢
      exact Or.inr this

theorem kvGet_clearCached_none {β : Type} (g : List (String × β))
    (keys : List String) (k : String) (h : kvGet g k = none) :
    kvGet (clearCached g keys) k = none := by
  rw [kvGet_clearCached]
  by_cases hm : k ∈ keys <;> simp [hm, h]

theorem clearTeamCaches_teams {π : Type} (g : GStore π) :
    kvGet (clearTeamCaches g) "cachedTeams" = none := by
  simp only [clearTeamCaches]
  apply kvGet_clearCached_none
  rw [kvGet_clearCached]
  simp

theorem clearTeamCaches_stem {π : Type} (g : GStore π) (k : String)
    (hk : isTeamDetailsKey k = true) :
    kvGet (clearTeamCaches g) k = none := by
  simp only [clearTeamCaches]
  rw [kvGet_clearCached]
  by_cases hm : k ∈ (kvKeys (clearCached g ["cachedTeams"])).filter
      (fun k => isTeamDetailsKey k)
  · simp [hm]
  · rw [if_neg hm]
    cases hv : kvGet (clearCached g ["cachedTeams"]) k with
    | none => rfl
    | some v =>
      exact absurd (List.mem_filter.mpr ⟨kvGet_mem_keys _ _ _ hv, hk⟩) hm

theorem clearTeamCaches_frame {π : Type} (g : GStore π) (k : String)
    (h1 : k ≠ "cachedTeams") (h2 : isTeamDetailsKey k = false) :
    kvGet (clearTeamCaches g) k = kvGet g k := by
  simp only [clearTeamCaches]
  rw [kvGet_clearCached, kvGet_clearCached]
  have hm : ¬ k ∈ (kvKeys (clearCached g ["cachedTeams"])).filter
      (fun k => isTeamDetailsKey k) := by
    intro hmem
    have := (List.mem_filter.mp hmem).2
    rw [h2] at this
    exact Bool.false_ne_true this
  rw [if_neg hm]
  simp [h1]

theorem clearAllCaches_userMe {π : Type} (g : GStore π) :
    kvGet (clearAllCaches g) "cachedUserMe" = none := by
  simp only [clearAllCaches]
  apply kvGet_clearCached_none
  rw [kvGet_clearCached]
  simp

theorem clearAllCaches_teams {π : Type} (g : GStore π) :
    kvGet (clearAllCaches g) "cachedTeams" = none := by
  simp only [clearAllCaches]
  apply kvGet_clearCached_none
  rw [kvGet_clearCached]
  simp

theorem clearAllCaches_stem {π : Type} (g : GStore π) (k : String)
    (hk : isTeamDetailsKey k = true) :
    kvGet (clearAllCaches g) k = none := by
  simp only [clearAllCaches]
  rw [kvGet_clearCached]
  by_cases hm : k ∈ (kvKeys (clearCached g ["cachedUserMe", "cachedTeams"])).filter
      (fun k => isTeamDetailsKey k)
  · simp [hm]
  · rw [if_neg hm]
    cases hv : kvGet (clearCached g ["cachedUserMe", "cachedTeams"]) k with
    | none => rfl
    | some v =>
      exact absurd (List.mem_filter.mpr ⟨kvGet_mem_keys _ _ _ hv, hk⟩) hm

/-! ## Fingerprint and auth-change lemmas -/

theorem kvGet_writeFingerprint_other {π : Type} (g2 : GStore π)
    (cur : String) (tid : Option Int) (k : String)
    (h1 : k ≠ LAST_KNOWN_COOKIE_HASH_KEY) (h2 : k ≠ LAST_KNOWN_TEAM_ID_KEY) :
    kvGet (writeFingerprint g2 cur tid) k = kvGet g2 k := by
  cases tid <;> simp [writeFingerprint, kvGet_kvSet, kvGet_kvDelete, h1, h2]

theorem kvGet_writeFingerprint_hash {π : Type} (g2 : GStore π)
    (cur : String) (tid : Option Int) :
    kvGet (writeFingerprint g2 cur tid) LAST_KNOWN_COOKIE_HASH_KEY
      = some (GVal.str cur) := by
  have hne : LAST_KNOWN_COOKIE_HASH_KEY ≠ LAST_KNOWN_TEAM_ID_KEY := by decide
  cases tid <;> simp [writeFingerprint, kvGet_kvSet, kvGet_kvDelete, hne]

theorem kvGet_writeFingerprint_team {π : Type} (g2 : GStore π)
    (cur : String) (tid : Option Int) :
    kvGet (writeFingerprint g2 cur tid) LAST_KNOWN_TEAM_ID_KEY
      = Option.map GVal.int tid := by
  cases tid <;> simp [writeFingerprint, kvGet_kvSet, kvGet_kvDelete]

theorem authClearedStore_clears {π : Type} (hashCookie : String → String)
    (c : String) (cfgTeamId : Option String) (g : GStore π) (h : String)
    (hH : readLastCookieHash g = some h) (hne : h ≠ "")
    (hdiff : h ≠ hashCookie c) :
    kvGet (authClearedStore hashCookie c cfgTeamId g) "cachedUserMe" = none ∧
    kvGet (authClearedStore hashCookie c cfgTeamId g) "cachedTeams" = none ∧
    ∀ k, isTeamDetailsKey k = true →
      kvGet (authClearedStore hashCookie c cfgTeamId g) k = none := by
  have hstep : authClearedStore hashCookie c cfgTeamId g =
      if readLastTeamId g ≠ cfgTeamIdNum cfgTeamId then
        clearTeamCaches (clearAllCaches g) else clearAllCaches g := by
    simp [authClearedStore, hH, hne, hdiff]
  rw [hstep]
  by_cases ht : readLastTeamId g ≠ cfgTeamIdNum cfgTeamId
  · rw [if_pos ht]
    refine ⟨?_, clearTeamCaches_teams _, fun k hk => clearTeamCaches_stem _ k hk⟩
    rw [clearTeamCaches_frame _ _ (by decide) (by decide)]
    exact clearAllCaches_userMe g
  · rw [if_neg ht]
    exact ⟨clearAllCaches_userMe g, clearAllCaches_teams g,
      fun k hk => clearAllCaches_stem g k hk⟩

theorem authClearedStore_teamOnly {π : Type} (hashCookie : String → String)
    (c : String) (cfgTeamId : Option String) (g : GStore π)
    (hH : readLastCookieHash g = none ∨
      ∃ h, readLastCookieHash g = some h ∧ (h = "" ∨ h = hashCookie c))
    (ht : readLastTeamId g ≠ cfgTeamIdNum cfgTeamId) :
    authClearedStore hashCookie c cfgTeamId g = clearTeamCaches g := by
  have hstep :
      (match readLastCookieHash g with
        | some h => if h ≠ "" ∧ h ≠ hashCookie c then clearAllCaches g else g
        | none => g) = g := by
    rcases hH with hnone | ⟨h, hsome, hcase⟩
    · rw [hnone]
    · rw [hsome]
      rcases hcase with rfl | rfl <;> simp
  simp only [authClearedStore, hstep, if_pos ht]

theorem stemKey_ne_hashKey (k : String) (hk : isTeamDetailsKey k = true) :
    k ≠ LAST_KNOWN_COOKIE_HASH_KEY := by
  intro he
  rw [he] at hk
  exact absurd hk (by decide)

theorem stemKey_ne_teamKey (k : String) (hk : isTeamDetailsKey k = true) :
    k ≠ LAST_KNOWN_TEAM_ID_KEY := by
  intro he
  rw [he] at hk
  exact absurd hk (by decide)

/-! ## Claim theorems -/

/-- C1: the claim says every always-failing wrapped operation is attempted
exactly R+1 = 3 times.  The code has no retry executor: `makeRequest`
issues exactly one HTTPS request; against a server answering HTTP 500 on
every request it makes 1 attempt, not 3, and propagates that first error. -/
theorem C1_makeRequest_single_attempt :
    makeRequest (fun _ => some ()) (fun _ => HttpEvent.response 500 "server error")
      = (Except.error "HTTP 500: server error", 1) ∧
    (makeRequest (fun _ => some ())
      (fun _ => HttpEvent.response 500 "server error")).2 ≠ 3 := by
  constructor
  · rfl
  · simp [makeRequest]

/-- C5: an entry set at `t0` is returned unchanged by any `get` at
`t − t0 ≤ 86,400,000 ms`; a `get` at `t − t0 > 86,400,000 ms` returns
absent and deletes the entry as a side effect. -/
theorem C5_cache_ttl {α : Type} (g : CacheStore α) (key : String) (v : α)
    (t0 t : Int) :
    (t - t0 ≤ 86400000 →
      (getCached t (setCached t0 g key v) key).1 = some v) ∧
    (86400000 < t - t0 →
      (getCached t (setCached t0 g key v) key).1 = none ∧
      kvGet (getCached t (setCached t0 g key v) key).2 key = none) := by
  have hget : kvGet (setCached t0 g key v) key = some { data := v, timestamp := t0 } := by
    simp [setCached, kvGet_kvSet]
  constructor
  · intro h
    have hcond : ¬ (CACHE_EXPIRY_MS < t - t0) := by
      simp only [CACHE_EXPIRY_MS]
      omega
    simp [getCached, hget, hcond]
  · intro h
    have hcond : CACHE_EXPIRY_MS < t - t0 := by
      simp only [CACHE_EXPIRY_MS]
      omega
    constructor
    · simp [getCached, hget, hcond]
    · simp [getCached, hget, hcond, kvGet_kvDelete]

/-- Witness for C5 at the boundary: read at exactly the TTL still hits,
read one millisecond past the TTL misses and deletes. -/
theorem C5_cache_ttl_witness :
    (getCached 86400000 (setCached 0 ([] : CacheStore Nat) "k" 7) "k").1 = some 7 ∧
    (getCached 86400001 (setCached 0 ([] : CacheStore Nat) "k" 7) "k").1 = none ∧
    kvGet (getCached 86400001 (setCached 0 ([] : CacheStore Nat) "k" 7) "k").2 "k" = none :=
  ⟨(C5_cache_ttl [] "k" 7 0 86400000).1 (by decide),
   ((C5_cache_ttl [] "k" 7 0 86400001).2 (by decide)).1,
   ((C5_cache_ttl [] "k" 7 0 86400001).2 (by decide)).2⟩

/-- C3: the claim keys the day rollover to the local calendar day.  The
code compares the stored date against the UTC day (`toISOString`): at
local 09:30 on 2025-09-26 in a zone 13 hours ahead of UTC the instant is
2025-09-25T20:30Z, so with state {date:"2025-09-25", attempts:3,
sent:true} no reset happens and the sent guard exits with no delivery
attempt and no write — the stored date differs from the local day, yet the
routine does not reset. -/
theorem C3_day_rollover_uses_utc_day :
    checkAndSendNotification
        { utcDay := "2025-09-25", localDay := "2025-09-26", localHour := 9 }
        (some { date := "2025-09-25", attempts := 3, sent := true }) true
      = { persisted := none, attempted := false } ∧
    ({ date := "2025-09-25", attempts := 3, sent := true } : NotificationState).date
      ≠ ({ utcDay := "2025-09-25", localDay := "2025-09-26", localHour := 9 } : Clock).localDay := by
  constructor
  · rfl
  · decide

/-- C4 counterexample: an invocation stopped by the already-sent guard
performs zero writes of the persisted state, not exactly one. -/
theorem C4_counterexample_guard_no_write :
    (checkAndSendNotification
        { utcDay := "2025-09-25", localDay := "2025-09-25", localHour := 15 }
        (some { date := "2025-09-25", attempts := 1, sent := true }) true).persisted
      = none := by
  rfl

/-- C4 (amended): the check routine persists the state exactly once per
invocation if and only if all guards pass (i.e. a delivery attempt is
made); in every attempt case — success, delivery failure, reconciliation
failure — the write happens, while guarded invocations return without
writing. -/
theorem C4_persist_iff_attempt (c : Clock) (stored : Option NotificationState)
    (deliveryOk : Bool) :
    (checkAndSendNotification c stored deliveryOk).persisted.isSome
      = guardsPass c stored ∧
    (checkAndSendNotification c stored deliveryOk).attempted
      = guardsPass c stored := by
  have e2 : (3 ≤ (effectiveState c stored).attempts)
      ↔ ¬ ((effectiveState c stored).attempts < 3) := by omega
  have e3 : (c.localHour < 9) ↔ ¬ (9 ≤ c.localHour) := by omega
  by_cases h1 : (effectiveState c stored).sent <;>
    by_cases h2 : (effectiveState c stored).attempts < 3 <;>
      by_cases h3 : 9 ≤ c.localHour <;>
        simp [checkAndSendNotification, guardsPass, h1, h2, h3, e2, e3]

/-- C9: with the stored date equal to the routine's current day, a state
with `sent = true` or `attempts ≥ 3` causes no delivery attempt at any
hour (and no write); moreover any state the routine ever persists has
`attempts ≤ 3`. -/
theorem C9_terminal_guards_and_cap (c : Clock) (s : NotificationState)
    (d : Bool) (c2 : Clock) (stored2 : Option NotificationState) (d2 : Bool)
    (st2 : NotificationState)
    (hdate : s.date = c.utcDay) (hguard : s.sent = true ∨ 3 ≤ s.attempts)
    (hp : (checkAndSendNotification c2 stored2 d2).persisted = some st2) :
    checkAndSendNotification c (some s) d
      = { persisted := none, attempted := false } ∧
    st2.attempts ≤ 3 := by
  constructor
  · have heff : effectiveState c (some s) = s := by
      simp [effectiveState, hdate]
    rcases hguard with hs | ha
    · simp [checkAndSendNotification, heff, hs]
    · by_cases hs : s.sent <;>
        simp [checkAndSendNotification, heff, hs, ha]
  · by_cases h1 : (effectiveState c2 stored2).sent
    · simp [checkAndSendNotification, h1] at hp
    · by_cases h2 : 3 ≤ (effectiveState c2 stored2).attempts
      · simp [checkAndSendNotification, h1, h2] at hp
      · by_cases h3 : c2.localHour < 9
        · simp [checkAndSendNotification, h1, h2, h3] at hp
        · have hlt : (effectiveState c2 stored2).attempts < 3 := by omega
          cases hd2 : d2 <;>
            simp [checkAndSendNotification, h1, h2, h3, hd2] at hp <;>
              rw [← hp] <;> simp <;> omega

/-- Witness for C9: a capped state at 10:00 does nothing, and a state the
routine persists (fresh state, delivery succeeding) has one attempt. -/
theorem C9_terminal_guards_and_cap_witness :
    checkAndSendNotification
        { utcDay := "2025-09-25", localDay := "2025-09-25", localHour := 10 }
        (some { date := "2025-09-25", attempts := 3, sent := false }) true
      = { persisted := none, attempted := false } ∧
    ({ date := "2025-09-25", attempts := 1, sent := true } : NotificationState).attempts ≤ 3 :=
  C9_terminal_guards_and_cap
    { utcDay := "2025-09-25", localDay := "2025-09-25", localHour := 10 }
    { date := "2025-09-25", attempts := 3, sent := false } true
    { utcDay := "2025-09-25", localDay := "2025-09-25", localHour := 10 }
    (some { date := "2025-09-25", attempts := 0, sent := false }) true
    { date := "2025-09-25", attempts := 1, sent := true }
    rfl (Or.inr (by decide)) (by decide)

/-- C2: with a credential present and the user identity available, a
failing user-quota fetch makes the refresh a complete failure: no snapshot
is produced (the status bar is not updated with partial data), regardless
of the team-scoped outcomes, and the result is the explicit failure
constructor. -/
theorem C2_complete_failure {ρ : Type} (calcReset : String → ρ)
    (env : RefreshEnv) (c : String) (um : UserMeResponse) (e : String)
    (hc : env.cookie = some c)
    (hm : userMeResOf env = Except.ok um)
    (hu : env.fetchUserUsage = Except.error e) :
    refreshUsage calcReset env = RefreshResult.completeFailure := by
  simp [refreshUsage, hc, hm, hu]

/-- Witness for C2: quota fetch fails while every team call succeeds. -/
theorem C2_complete_failure_witness :
    refreshUsage (fun _ => ())
      ⟨some "c", some ⟨"a@b", true, "n", "user_1", "t", none⟩,
        Except.error "unused", Except.error "boom", some 7, none,
        Except.ok ⟨3⟩, Except.ok ⟨[]⟩⟩
      = RefreshResult.completeFailure :=
  C2_complete_failure (fun _ => ()) _ "c" ⟨"a@b", true, "n", "user_1", "t", none⟩
    "boom" rfl rfl rfl

/-- C7: when the user-quota call succeeds but a team-scoped call (details
or spend) fails, the refresh still renders a snapshot: spend fields
absent, used requests taken from the individual figure, and
remainingRequests = max(0, totalRequests − usedRequests); the invocation
is not a failure. -/
theorem C7_partial_failure_snapshot {ρ : Type} (calcReset : String → ρ)
    (env : RefreshEnv) (c : String) (um : UserMeResponse)
    (uu : UserUsageResponse) (tid : Int)
    (hc : env.cookie = some c)
    (hm : userMeResOf env = Except.ok um)
    (hu : env.fetchUserUsage = Except.ok uu)
    (ht : env.teamId = some tid) (ht0 : tid ≠ 0)
    (hfail : (∃ e, teamDetailsResOf env = Except.error e) ∨
      (∃ e, env.fetchTeamSpend = Except.error e)) :
    refreshUsage calcReset env = RefreshResult.snapshot
      { remainingRequests := max 0 (maxRequestsOf (some uu) - uu.gpt4.numRequests)
        totalRequests := maxRequestsOf (some uu)
        spendCents := none
        hardLimitDollars := none
        resetInfo := calcReset uu.startOfMonth } := by
  have hms : mySpendOf env = none := by
    rcases hfail with ⟨e, he⟩ | ⟨e, he⟩
    · simp [mySpendOf, ht, ht0, he]
    · cases hd : teamDetailsResOf env
      · simp [mySpendOf, ht, ht0, hd]
      · simp [mySpendOf, ht, ht0, hd, he]
  simp [refreshUsage, hc, hm, hu, hms, usedSpendOf]

/-- Witness for C7: team details cached, team-spend call fails; the
snapshot uses the individual figure 130 of 500. -/
theorem C7_partial_failure_snapshot_witness :
    refreshUsage (fun _ => ())
      ⟨some "c", some ⟨"a@b", true, "n", "user_1", "t", none⟩,
        Except.error "unused",
        Except.ok ⟨⟨130, 130, 0, some 500, none⟩, ⟨0, 0, 0, none, none⟩,
          ⟨0, 0, 0, none, none⟩, "2025-09-01"⟩,
        some 7, some ⟨3⟩, Except.error "unused", Except.error "spend down"⟩
      = RefreshResult.snapshot ⟨370, 500, none, none, ()⟩ := by
  exact C7_partial_failure_snapshot (fun _ => ()) _ "c"
    ⟨"a@b", true, "n", "user_1", "t", none⟩
    ⟨⟨130, 130, 0, some 500, none⟩, ⟨0, 0, 0, none, none⟩,
      ⟨0, 0, 0, none, none⟩, "2025-09-01"⟩
    7 rfl rfl rfl rfl (by decide) (Or.inr ⟨"spend down", rfl⟩)

/-- C10: when the user-quota response is present but its gpt-4
maxRequestUsage is null or zero (both falsy under JavaScript `||`), the
rendered snapshot uses 500 as totalRequests and in the remaining-requests
computation; and the same default 500 is the value `maxRequests` takes
when the user-quota response is unavailable. -/
theorem C10_default_500 {ρ : Type} (calcReset : String → ρ)
    (env : RefreshEnv) (c : String) (um : UserMeResponse)
    (uu : UserUsageResponse)
    (hc : env.cookie = some c)
    (hm : userMeResOf env = Except.ok um)
    (hu : env.fetchUserUsage = Except.ok uu)
    (hmax : uu.gpt4.maxRequestUsage = none ∨ uu.gpt4.maxRequestUsage = some 0) :
    refreshUsage calcReset env = RefreshResult.snapshot
      { remainingRequests := max 0 (500 - (usedSpendOf (mySpendOf env) uu).1)
        totalRequests := 500
        spendCents := (usedSpendOf (mySpendOf env) uu).2.1
        hardLimitDollars := (usedSpendOf (mySpendOf env) uu).2.2
        resetInfo := calcReset uu.startOfMonth } ∧
    maxRequestsOf none = 500 := by
  have h500 : maxRequestsOf (some uu) = 500 := by
    rcases hmax with h | h <;> simp [maxRequestsOf, h]
  exact ⟨by simp [refreshUsage, hc, hm, hu, h500], rfl⟩

/-- Witness for C10: maxRequestUsage is 0 and no team is resolved; the
snapshot shows 0 of 500 remaining after 9001 used requests. -/
theorem C10_default_500_witness :
    refreshUsage (fun _ => ())
      ⟨some "c", some ⟨"a@b", true, "n", "user_1", "t", none⟩,
        Except.error "unused",
        Except.ok ⟨⟨9001, 9001, 0, some 0, none⟩, ⟨0, 0, 0, none, none⟩,
          ⟨0, 0, 0, none, none⟩, "2025-09-01"⟩,
        none, none, Except.error "unused", Except.error "unused"⟩
      = RefreshResult.snapshot ⟨0, 500, none, none, ()⟩ ∧
    maxRequestsOf none = 500 := by
  exact C10_default_500 (fun _ => ()) _ "c"
    ⟨"a@b", true, "n", "user_1", "t", none⟩
    ⟨⟨9001, 9001, 0, some 0, none⟩, ⟨0, 0, 0, none, none⟩,
      ⟨0, 0, 0, none, none⟩, "2025-09-01"⟩
    rfl rfl rfl (Or.inr rfl)

/-- C6: with a credential present, if a persisted (non-empty) cookie hash
exists and differs from the hash of the current credential, then after
reconciliation the user-identity entry, the team-list entry and every
`cachedTeamDetails_`-keyed entry are absent; and, with a credential
present, the persisted fingerprint is unconditionally overwritten with the
current hash and configured team id. -/
theorem C6_cookie_change_invalidation {π : Type}
    (hashCookie : String → String) (cfgTeamId : Option String)
    (g : GStore π) (c h k : String) (gq : GStore π)
    (hg : gq = checkAndClearCacheOnAuthChange hashCookie (some c) cfgTeamId g) :
    (kvGet g LAST_KNOWN_COOKIE_HASH_KEY = some (GVal.str h) → h ≠ "" →
        h ≠ hashCookie c →
      (kvGet gq "cachedUserMe" = none ∧ kvGet gq "cachedTeams" = none ∧
        (isTeamDetailsKey k = true → kvGet gq k = none))) ∧
    (kvGet gq LAST_KNOWN_COOKIE_HASH_KEY = some (GVal.str (hashCookie c)) ∧
      kvGet gq LAST_KNOWN_TEAM_ID_KEY
        = Option.map GVal.int (cfgTeamIdNum cfgTeamId)) := by
  subst hg
  have h0 : checkAndClearCacheOnAuthChange hashCookie (some c) cfgTeamId g
      = writeFingerprint (authClearedStore hashCookie c cfgTeamId g)
          (hashCookie c) (cfgTeamIdNum cfgTeamId) := rfl
  rw [h0]
  constructor
  · intro hH hne hdiff
    have hra : readLastCookieHash g = some h := by
      simp [readLastCookieHash, hH]
    obtain ⟨h1, h2, h3⟩ :=
      authClearedStore_clears hashCookie c cfgTeamId g h hra hne hdiff
    refine ⟨?_, ?_, ?_⟩
    · rw [kvGet_writeFingerprint_other _ _ _ _ (by decide) (by decide)]
      exact h1
    · rw [kvGet_writeFingerprint_other _ _ _ _ (by decide) (by decide)]
      exact h2
    · intro hk
      rw [kvGet_writeFingerprint_other _ _ _ _ (stemKey_ne_hashKey k hk)
        (stemKey_ne_teamKey k hk)]
      exact h3 k hk
  · exact ⟨kvGet_writeFingerprint_hash _ _ _, kvGet_writeFingerprint_team _ _ _⟩

/-- Witness for C6: a concrete store whose persisted hash differs from the
current one; all three cache entries end absent and the fingerprint holds
the new values. -/
theorem C6_cookie_change_invalidation_witness :
    kvGet (checkAndClearCacheOnAuthChange (fun s => "H:" ++ s)
        (some "cookie") (some "5")
        ([("cachedUserMe", GVal.cache ()), ("cachedTeams", GVal.cache ()),
          ("cachedTeamDetails_7", GVal.cache ()),
          ("lastKnownCookieHash", GVal.str "oldhash"),
          ("lastKnownTeamId", GVal.int 5)] : GStore Unit)) "cachedUserMe" = none ∧
    kvGet (checkAndClearCacheOnAuthChange (fun s => "H:" ++ s)
        (some "cookie") (some "5")
        ([("cachedUserMe", GVal.cache ()), ("cachedTeams", GVal.cache ()),
          ("cachedTeamDetails_7", GVal.cache ()),
          ("lastKnownCookieHash", GVal.str "oldhash"),
          ("lastKnownTeamId", GVal.int 5)] : GStore Unit)) "cachedTeams" = none ∧
    kvGet (checkAndClearCacheOnAuthChange (fun s => "H:" ++ s)
        (some "cookie") (some "5")
        ([("cachedUserMe", GVal.cache ()), ("cachedTeams", GVal.cache ()),
          ("cachedTeamDetails_7", GVal.cache ()),
          ("lastKnownCookieHash", GVal.str "oldhash"),
          ("lastKnownTeamId", GVal.int 5)] : GStore Unit)) "cachedTeamDetails_7" = none ∧
    kvGet (checkAndClearCacheOnAuthChange (fun s => "H:" ++ s)
        (some "cookie") (some "5")
        ([("cachedUserMe", GVal.cache ()), ("cachedTeams", GVal.cache ()),
          ("cachedTeamDetails_7", GVal.cache ()),
          ("lastKnownCookieHash", GVal.str "oldhash"),
          ("lastKnownTeamId", GVal.int 5)] : GStore Unit)) "lastKnownCookieHash"
      = some (GVal.str ("H:" ++ "cookie")) ∧
    kvGet (checkAndClearCacheOnAuthChange (fun s => "H:" ++ s)
        (some "cookie") (some "5")
        ([("cachedUserMe", GVal.cache ()), ("cachedTeams", GVal.cache ()),
          ("cachedTeamDetails_7", GVal.cache ()),
          ("lastKnownCookieHash", GVal.str "oldhash"),
          ("lastKnownTeamId", GVal.int 5)] : GStore Unit)) "lastKnownTeamId"
      = some (GVal.int 5) := by
  have H := C6_cookie_change_invalidation (fun s => "H:" ++ s) (some "5")
    ([("cachedUserMe", GVal.cache ()), ("cachedTeams", GVal.cache ()),
      ("cachedTeamDetails_7", GVal.cache ()),
      ("lastKnownCookieHash", GVal.str "oldhash"),
      ("lastKnownTeamId", GVal.int 5)] : GStore Unit)
    "cookie" "oldhash" "cachedTeamDetails_7" _ rfl
  have H1 := H.1 (by decide) (by decide) (by decide)
  exact ⟨H1.1, H1.2.1, H1.2.2 (by decide), H.2.1, H.2.2.trans (by decide)⟩

/-- C8 counterexample: a reconciliation in which the persisted team id (1)
differs from the resolved current team id (2) but the cookie hash also
changed; the user-identity cache entry is cleared as well, so the claim's
"only team-scoped entries, user-identity left unchanged" fails. -/
theorem C8_counterexample_user_cache_cleared :
    readLastTeamId ([("cachedUserMe", GVal.cache ()),
        ("lastKnownCookieHash", GVal.str "old"),
        ("lastKnownTeamId", GVal.int 1)] : GStore Unit)
      ≠ cfgTeamIdNum (some "2") ∧
    kvGet ([("cachedUserMe", GVal.cache ()),
        ("lastKnownCookieHash", GVal.str "old"),
        ("lastKnownTeamId", GVal.int 1)] : GStore Unit) "cachedUserMe"
      = some (GVal.cache ()) ∧
    kvGet (checkAndClearCacheOnAuthChange (fun _ => "new") (some "cookie")
        (some "2")
        ([("cachedUserMe", GVal.cache ()),
          ("lastKnownCookieHash", GVal.str "old"),
          ("lastKnownTeamId", GVal.int 1)] : GStore Unit)) "cachedUserMe"
      = none := by
  exact ⟨by decide, by decide, by decide⟩

/-- C8 (amended): with a credential present, when the persisted team id
differs from the resolved current team id and the persisted cookie hash
is absent, empty, or equal to the current credential's hash, only the
team-scoped entries are invalidated: the team list and every
`cachedTeamDetails_` entry end absent, the user-identity entry is
unchanged, and every other non-fingerprint key is unchanged. -/
theorem C8_amended_team_change_scope {π : Type}
    (hashCookie : String → String) (cfgTeamId : Option String)
    (g : GStore π) (c k : String) (gq : GStore π)
    (hg : gq = checkAndClearCacheOnAuthChange hashCookie (some c) cfgTeamId g)
    (hH : readLastCookieHash g = none ∨
      ∃ h, readLastCookieHash g = some h ∧ (h = "" ∨ h = hashCookie c))
    (ht : readLastTeamId g ≠ cfgTeamIdNum cfgTeamId) :
    kvGet gq "cachedUserMe" = kvGet g "cachedUserMe" ∧
    kvGet gq "cachedTeams" = none ∧
    (isTeamDetailsKey k = true → kvGet gq k = none) ∧
    (k ≠ "cachedTeams" → isTeamDetailsKey k = false →
      k ≠ LAST_KNOWN_COOKIE_HASH_KEY → k ≠ LAST_KNOWN_TEAM_ID_KEY →
      kvGet gq k = kvGet g k) := by
  subst hg
  have hstep : checkAndClearCacheOnAuthChange hashCookie (some c) cfgTeamId g
      = writeFingerprint (clearTeamCaches g) (hashCookie c)
          (cfgTeamIdNum cfgTeamId) := by
    have h0 : checkAndClearCacheOnAuthChange hashCookie (some c) cfgTeamId g
        = writeFingerprint (authClearedStore hashCookie c cfgTeamId g)
            (hashCookie c) (cfgTeamIdNum cfgTeamId) := rfl
    rw [h0, authClearedStore_teamOnly hashCookie c cfgTeamId g hH ht]
  rw [hstep]
  refine ⟨?_, ?_, ?_, ?_⟩
  · rw [kvGet_writeFingerprint_other _ _ _ _ (by decide) (by decide)]
    exact clearTeamCaches_frame g _ (by decide) (by decide)
  · rw [kvGet_writeFingerprint_other _ _ _ _ (by decide) (by decide)]
    exact clearTeamCaches_teams g
  · intro hk
    rw [kvGet_writeFingerprint_other _ _ _ _ (stemKey_ne_hashKey k hk)
      (stemKey_ne_teamKey k hk)]
    exact clearTeamCaches_stem g k hk
  · intro n1 n2 n3 n4
    rw [kvGet_writeFingerprint_other _ _ _ _ n3 n4]
    exact clearTeamCaches_frame g k n1 n2

/-- Witness for C8 (amended): first run after a team switch (no persisted
hash); the user cache survives while the team caches are cleared. -/
theorem C8_amended_team_change_scope_witness :
    kvGet (checkAndClearCacheOnAuthChange (fun _ => "new") (some "cookie")
        (some "2")
        ([("cachedUserMe", GVal.cache ()), ("cachedTeams", GVal.cache ()),
          ("cachedTeamDetails_9", GVal.cache ()),
          ("lastKnownTeamId", GVal.int 1)] : GStore Unit)) "cachedUserMe"
      = kvGet ([("cachedUserMe", GVal.cache ()), ("cachedTeams", GVal.cache ()),
          ("cachedTeamDetails_9", GVal.cache ()),
          ("lastKnownTeamId", GVal.int 1)] : GStore Unit) "cachedUserMe" ∧
    kvGet (checkAndClearCacheOnAuthChange (fun _ => "new") (some "cookie")
        (some "2")
        ([("cachedUserMe", GVal.cache ()), ("cachedTeams", GVal.cache ()),
          ("cachedTeamDetails_9", GVal.cache ()),
          ("lastKnownTeamId", GVal.int 1)] : GStore Unit)) "cachedTeams"
      = none ∧
    kvGet (checkAndClearCacheOnAuthChange (fun _ => "new") (some "cookie")
        (some "2")
        ([("cachedUserMe", GVal.cache ()), ("cachedTeams", GVal.cache ()),
          ("cachedTeamDetails_9", GVal.cache ()),
          ("lastKnownTeamId", GVal.int 1)] : GStore Unit)) "cachedTeamDetails_9"
      = none := by
  have H := C8_amended_team_change_scope (fun _ => "new") (some "2")
    ([("cachedUserMe", GVal.cache ()), ("cachedTeams", GVal.cache ()),
      ("cachedTeamDetails_9", GVal.cache ()),
      ("lastKnownTeamId", GVal.int 1)] : GStore Unit)
    "cookie" "cachedTeamDetails_9" _ rfl (Or.inl (by decide)) (by decide)
  exact ⟨H.1, H.2.1, H.2.2.1 (by decide)⟩

end CursorUsage
